import Mathlib

/-!
Verification development for `main_script.py`: a batch pipeline that fetches
daily weather rows, provisions a PostgreSQL container, persists the rows and
prints summary statistics.  The definitions below are a shallow embedding of
the functions of `main_script.py`; theorems settle the specification claims.
-/

namespace MainScript

/-- A calendar date as carried in the dataframe's `date` column. -/
structure WDate where
  day : Nat
  month : Nat
  year : Nat
deriving DecidableEq

/-- One row of the weather dataframe built by `get_weather_data`.  The numeric
columns come back from the API client as numpy arrays and may hold missing
values (NaN); a missing value is modelled as `none`.  Numeric magnitudes are
modelled as integers: every claim under verification depends only on the
ordering and equality of the values, never on fractional arithmetic. -/
structure WRow where
  date : WDate
  weather_code : Option Int
  temperature_2m_max : Option Int
  temperature_2m_min : Option Int
  apparent_temperature_max : Option Int
  apparent_temperature_min : Option Int
  wind_speed_10m_max : Option Int
deriving DecidableEq

/-- The genitive month names of the `months` dictionary in `get_dates`.
The source dictionary has exactly the keys 1..12; month numbers of real dates
never fall outside that range, so the out-of-range case is modelled as `""`. -/
def monthGenitive : Nat → String
  | 1 => "января"
  | 2 => "февраля"
  | 3 => "марта"
  | 4 => "апреля"
  | 5 => "мая"
  | 6 => "июня"
  | 7 => "июля"
  | 8 => "августа"
  | 9 => "сентября"
  | 10 => "октября"
  | 11 => "ноября"
  | 12 => "декабря"
  | _ => ""

/-- The expression `f"{x.day} {months[x.month]} {x.year}"` from `get_dates`. -/
def formatDate (d : WDate) : String :=
  toString d.day ++ " " ++ monthGenitive d.month ++ " " ++ toString d.year

/-- The conversion `pd.to_datetime` applied to the dataframe's `date` column.  The column is
produced by `get_weather_data` via `pd.date_range`, so it already holds
datetime values, and converting an already-datetime value returns it
unchanged; on `WDate` the conversion is therefore the identity. -/
def to_datetime (d : WDate) : WDate := d

/-- Stable descending insertion: `x` is placed before the first element whose
key is strictly smaller, i.e. after every earlier element of equal or larger
key.  This realises the tie-breaking of `DataFrame.nlargest` with its default
`keep="first"`: among equal keys, the row that appears first wins. -/
def insertDesc {α : Type} (key : α → Int) (x : α) : List α → List α
  | [] => [x]
  | y :: ys => if key x < key y then y :: insertDesc key x ys else x :: y :: ys

/-- Stable sort by descending key (insertion sort). -/
def sortDesc {α : Type} (key : α → Int) : List α → List α
  | [] => []
  | x :: xs => insertDesc key x (sortDesc key xs)

/-- Predicate: `l` is sorted by non-increasing key. -/
def SortedDesc {α : Type} (key : α → Int) (l : List α) : Prop :=
  l.Pairwise (fun a b => key b ≤ key a)

/-- Embeds `DataFrame.nlargest(n, column)`: rows whose value in the ordering column
is missing (NaN) are dropped, the remainder is ordered by descending column
value (ties kept in original order, `keep="first"`), and the first `n` rows
are returned.  After the `isSome` filter the key is total, so the sort reads
it with `Option.getD`; the default is never consulted. -/
def nlargest {α : Type} (n : Nat) (key : α → Option Int) (l : List α) : List α :=
  (sortDesc (fun r => (key r).getD 0) (l.filter (fun r => (key r).isSome))).take n

/-- Embeds `DataFrame.drop_duplicates(subset="date")` with its default
`keep="first"`: the first row carrying each date is kept, later rows with an
already-seen date are dropped.  `seen` accumulates the dates kept so far. -/
def dropDupDateAux (seen : List WDate) : List WRow → List WRow
  | [] => []
  | r :: rs =>
    if r.date ∈ seen then dropDupDateAux seen rs
    else r :: dropDupDateAux (r.date :: seen) rs

/-- Embeds `drop_duplicates(subset="date")` on a row list. -/
def drop_duplicates_date (l : List WRow) : List WRow := dropDupDateAux [] l

/-- Column selection `[["date", "temperature_2m_max"]]`: the other columns are
absent from the selected frame, so after `pd.concat` realigns the columns they
read as missing (`none`). -/
def selectTempCols (r : WRow) : WRow :=
  { date := r.date, weather_code := none,
    temperature_2m_max := r.temperature_2m_max, temperature_2m_min := none,
    apparent_temperature_max := none, apparent_temperature_min := none,
    wind_speed_10m_max := none }

/-- Column selection `[["date", "wind_speed_10m_max"]]`. -/
def selectWindCols (r : WRow) : WRow :=
  { date := r.date, weather_code := none,
    temperature_2m_max := none, temperature_2m_min := none,
    apparent_temperature_max := none, apparent_temperature_min := none,
    wind_speed_10m_max := r.wind_speed_10m_max }

/-- Embeds `get_dates(daily_dataframe)` from `main_script.py`.  The function first
reassigns the dataframe's `date` column through `pd.to_datetime` (an in-place
update of the caller's dataframe, modelled by returning the updated table as
the first component), then pools the top 3 rows by `temperature_2m_max` and
the top 3 rows by `wind_speed_10m_max` (each restricted to its two columns),
drops duplicate dates keeping the first occurrence, takes the top 3 of the
pool by `temperature_2m_max` again, and returns the formatted date strings. -/
def get_dates (daily_dataframe : List WRow) : List WRow × List String :=
  let df := daily_dataframe.map (fun r => { r with date := to_datetime r.date })
  let top_temp_dates :=
    (nlargest 3 (fun r => r.temperature_2m_max) df).map selectTempCols
  let top_wind_dates :=
    (nlargest 3 (fun r => r.wind_speed_10m_max) df).map selectWindCols
  let top_dates :=
    nlargest 3 (fun r => r.temperature_2m_max)
      (drop_duplicates_date (top_temp_dates ++ top_wind_dates))
  (df, top_dates.map (fun r => formatDate r.date))

/-- Embeds `daily_dataframe[daily_dataframe["weather_code"].isin([0, 1])].shape[0]`:
the count of rows whose weather code is 0 or 1.  `isin` is false on a missing
value, so `none` rows are not counted. -/
def sunny_day_count (df : List WRow) : Nat :=
  (df.filter (fun r =>
    decide (r.weather_code = some 0) || decide (r.weather_code = some 1))).length

/-- Embeds `daily_dataframe[daily_dataframe["temperature_2m_max"] >= 20].shape[0]`:
the count of rows with maximum temperature at least 20.  A NaN comparison is
false, so `none` rows are not counted. -/
def warm_day_count (df : List WRow) : Nat :=
  (df.filter (fun r =>
    match r.temperature_2m_max with
    | some t => decide (20 ≤ t)
    | none => false)).length

/-- The Summary Reporter phase of `__main__`: the two counts are computed by
boolean-mask subscripts of the dataframe (reads that build fresh objects),
then `get_dates` runs; `get_dates` is the only step that writes to the
dataframe (its `date`-column reassignment), so the reporter's resulting table
state is the one `get_dates` leaves behind. -/
def reporter (df : List WRow) : List WRow × (Nat × Nat × List String) :=
  let sunny := sunny_day_count df
  let warm := warm_day_count df
  let s := get_dates df
  (s.1, (sunny, warm, s.2))

/-! ## Container Launcher (`launch_container`) -/

/-- Python's substring test `needle in hay` on character lists: `needle`
occurs contiguously somewhere in `hay` (the empty needle always occurs). -/
def strInChars (needle : List Char) : List Char → Bool
  | [] => needle.isEmpty
  | c :: rest => needle.isPrefixOf (c :: rest) || strInChars needle rest

/-- Python's `container_name in result.stdout`. -/
def nameIn (container_name stdout : String) : Bool :=
  strInChars container_name.data stdout.data

/-- The command run by each status check in `launch_container`.  The filter
argument is the literal `"name=postgres_weather"` from the source — it does
not mention the `container_name` parameter. -/
def psCommand (container_name : String) : List String :=
  ["docker", "ps", "--filter", "name=postgres_weather", "--format",
   "\x7b\x7b.Names\x7d\x7d"]

/-- The outcome of one `subprocess.run(["docker", "ps", ...])` status check:
either it completes and yields its standard output, or it raises
`CalledProcessError` (caught in the loop). -/
inductive CheckResult : Type
  | ok (stdout : String)
  | err
deriving DecidableEq

/-- The observable outcome of the status-polling `while` loop, for a given
finite sequence of check outcomes:
`success k` — the loop returned `"Success"` after consuming `k` checks;
`fatalError k` — the loop exited (`retry_count > 2`) and the `RuntimeError`
naming the container was raised, after consuming `k` checks;
`stillPolling k` — the supplied outcomes ran out after `k` checks while the
loop was still about to perform another check (the loop is still running). -/
inductive PollOutcome : Type
  | success (attempts : Nat)
  | fatalError (attempts : Nat)
  | stillPolling (attempts : Nat)
deriving DecidableEq

/-- The `while retry_count <= 2` status-polling loop of `launch_container`.
`rc` is `retry_count`, `att` counts the checks performed so far, and the list
supplies the outcome of each successive check.  A completed check whose
output contains the container name returns success at once; a completed check
without the name increments `retry_count` and retries; a check that raises
`CalledProcessError` is caught and logged, and the loop retries with
`retry_count` unchanged (the `except` branch performs no increment). -/
def pollLoop (container_name : String) : Nat → Nat → List CheckResult → PollOutcome
  | rc, att, [] =>
    if 2 < rc then .fatalError att else .stillPolling att
  | rc, att, .ok stdout :: rest =>
    if 2 < rc then .fatalError att
    else if nameIn container_name stdout then .success (att + 1)
    else pollLoop container_name (rc + 1) (att + 1) rest
  | rc, att, .err :: rest =>
    if 2 < rc then .fatalError att
    else pollLoop container_name rc (att + 1) rest

/-- Embeds `launch_container`, reduced to its status-polling phase: the compose-file
write, `docker-compose up` and the warm-up sleep precede the loop and do not
affect it.  The loop starts with `retry_count = 0`. -/
def launch_container (container_name : String) (checks : List CheckResult) : PollOutcome :=
  pollLoop container_name 0 0 checks

/-- Spec-side definition, following the spec's words: the check "inspects the
output for an exact name match" — the container counts as running only when
one of the output's lines is exactly the container name. -/
def linesExactMatch (container_name stdout : String) : Bool :=
  (charLines stdout.data).contains container_name.data
where
  /-- Split a character list at newline characters. -/
  charLines : List Char → List (List Char)
    | [] => [[]]
    | c :: cs =>
      if c = '\n' then [] :: charLines cs
      else
        match charLines cs with
        | [] => [[c]]
        | l :: ls => (c :: l) :: ls

/-! ## Database Gateway (`create_table`, `load_data`) -/

/-- A column of a relational table schema. -/
structure Column where
  name : String
  sqlType : String
deriving DecidableEq

/-- A relational table schema: its columns and its primary-key column, if
any. -/
structure TableSchema where
  columns : List Column
  primaryKey : Option String
deriving DecidableEq

/-- The schema of the DDL statement in `create_table` (`CREATE TABLE IF NOT
EXISTS` with `date DATE PRIMARY KEY`, `weather_code INTEGER` and five FLOAT
columns).  This is also the schema §3 of the specification describes. -/
def ddl_schema : TableSchema :=
  { columns :=
      [⟨"date", "DATE"⟩,
       ⟨"weather_code", "INTEGER"⟩,
       ⟨"temperature_2m_max", "FLOAT"⟩,
       ⟨"temperature_2m_min", "FLOAT"⟩,
       ⟨"apparent_temperature_max", "FLOAT"⟩,
       ⟨"apparent_temperature_min", "FLOAT"⟩,
       ⟨"wind_speed_10m_max", "FLOAT"⟩],
    primaryKey := some "date" }

/-- The schema produced by `DataFrame.to_sql(..., if_exists="replace",
index=False)`, per pandas' documented semantics: `if_exists="replace"` drops
the existing table and recreates it from the frame's dtypes, and `to_sql`
never creates a primary key.  The frame built by `get_weather_data` has a
timezone-aware datetime `date` column (mapped to a timestamp-with-time-zone
column) and six numpy float columns — including `weather_code`, since the API
client's `ValuesAsNumpy()` returns float arrays — mapped to SQL floating
point columns. -/
def to_sql_replace_schema : TableSchema :=
  { columns :=
      [⟨"date", "TIMESTAMP WITH TIME ZONE"⟩,
       ⟨"weather_code", "FLOAT"⟩,
       ⟨"temperature_2m_max", "FLOAT"⟩,
       ⟨"temperature_2m_min", "FLOAT"⟩,
       ⟨"apparent_temperature_max", "FLOAT"⟩,
       ⟨"apparent_temperature_min", "FLOAT"⟩,
       ⟨"wind_speed_10m_max", "FLOAT"⟩],
    primaryKey := none }

/-- Embeds `create_table(engine, table_name)`.  The engine's behaviour is supplied
as the outcomes of its two statements: `ddlOutcome` is the result of
executing the DDL inside the `try` block (`.error e` models a raised
exception `e`), and `verifyOutcome` is the result of the
`information_schema.tables` existence query (`.ok b` yields the scalar `b`,
`.error e` models a raised exception).  The result is the list of messages
printed by `except` branches together with the Python-level outcome: a
returned value or a propagated exception. -/
def create_table (table_name : String)
    (ddlOutcome : Except String Unit) (verifyOutcome : Except String Bool) :
    List String × Except String String :=
  let logs :=
    match ddlOutcome with
    | .ok _ => []
    | .error e => ["Ошибка при создании таблицы: " ++ e]
  match verifyOutcome with
  | .error e => (logs, .error e)
  | .ok table_exists =>
    if table_exists then (logs, .ok "Success")
    else (logs, .error ("Ошибка: Таблица '" ++ table_name ++ "' не была создана."))

/-- The persisted table state and outcome of `load_data`. -/
structure LoadResult where
  schema : TableSchema
  rows : List WRow
  result : Except String String

/-- Embeds `load_data(daily_dataframe, table_name, engine)`.  The call
`to_sql(..., if_exists="replace")` replaces the persisted table wholesale:
the new persisted rows are whatever the engine ends up storing for the input
frame, modelled by the function `persist` (an engine that persists faithfully
is `fun rows => rows`; an engineered mismatch is any other function), and the
new schema is the pandas-inferred one.  The row count is then read back with
`SELECT COUNT(*)` and compared with `len(daily_dataframe)`: on mismatch the
`ValueError` is raised — after the replace has already happened — otherwise
`"Success"` is returned. -/
def load_data (daily_dataframe : List WRow)
    (persist : List WRow → List WRow) : LoadResult :=
  let persisted := persist daily_dataframe
  let row_count := persisted.length
  let expected := daily_dataframe.length
  if row_count ≠ expected then
    { schema := to_sql_replace_schema, rows := persisted,
      result := .error ("Ошибка: записано " ++ toString row_count ++
        " записей, ожидается " ++ toString expected ++ ".") }
  else
    { schema := to_sql_replace_schema, rows := persisted,
      result := .ok "Success" }

/-! ## Teardown Controller (`ask_user`) -/

/-- ASCII lower-casing of one character, the effect of `str.lower()` on the
answers the loop accepts. -/
def lowerChar (c : Char) : Char :=
  if 'A' ≤ c ∧ c ≤ 'Z' then Char.ofNat (c.toNat + 32) else c

/-- The whitespace characters `str.strip()` removes. -/
def isSpaceChar (c : Char) : Bool :=
  c = ' ' || c = '\t' || c = '\n' || c = '\r'

/-- Embeds `str.strip()`: drop leading and trailing whitespace. -/
def pyStrip (l : List Char) : List Char :=
  ((l.dropWhile isSpaceChar).reverse.dropWhile isSpaceChar).reverse

/-- Embeds `input(...).strip().lower()` applied to one console response. -/
def normalize (s : String) : String := ⟨(pyStrip s.data).map lowerChar⟩

/-- Embeds `ask_user()`: the `while True` loop reads console responses one by one;
a response whose normalization is `"y"` or `"n"` is returned at once, any
other response is rejected with an error message and the loop re-prompts.
The argument lists the successive console responses; `none` means the loop
exhausted them all without returning — it is still prompting. -/
def ask_user : List String → Option String
  | [] => none
  | s :: rest =>
    let answer := normalize s
    if answer = "y" ∨ answer = "n" then some answer else ask_user rest

/-! ## Concrete inputs used to instantiate the theorems -/

/-- A completed status check whose output does not contain the container
name (the "not yet running" poll outcome). -/
def isNotFoundCheck (container_name : String) : CheckResult → Bool
  | .ok stdout => !(nameIn container_name stdout)
  | .err => false

/-- A fully populated observation row (all columns present), with the given
date, maximum temperature and maximum wind speed. -/
def mkRow (day : Nat) (tmax wind : Int) : WRow :=
  { date := ⟨day, 9, 2024⟩, weather_code := some 0,
    temperature_2m_max := some tmax, temperature_2m_min := some 10,
    apparent_temperature_max := some 15, apparent_temperature_min := some 5,
    wind_speed_10m_max := some wind }

/-- The three-row table of the spec's top-3 scenario:
`[(d1, temp=30, wind=5), (d2, temp=25, wind=40), (d3, temp=20, wind=2)]`. -/
def exampleDf : List WRow := [mkRow 1 30 5, mkRow 2 25 40, mkRow 3 20 2]

/-- A four-row table in which the windiest date (day 4) is outside the
temperature top 3. -/
def windyDf : List WRow :=
  [mkRow 1 30 1, mkRow 2 25 2, mkRow 3 20 3, mkRow 4 10 50]

/-- A one-row table used to exercise `load_data` concretely. -/
def oneRowDf : List WRow := [mkRow 7 18 4]

/-! ## Lemmas about the polling loop -/

/-- Once `retry_count` exceeds 2 the loop exits and the `RuntimeError` is
raised, whatever check outcomes remain unconsumed. -/
theorem pollLoop_fatal_of_rc (container_name : String) (cs : List CheckResult)
    (rc att : Nat) (h : 2 < rc) :
    pollLoop container_name rc att cs = PollOutcome.fatalError att := by
  cases cs with
  | nil => simp [pollLoop, h]
  | cons c rest => cases c <;> simp [pollLoop, h]

/-- A prefix of completed, not-found checks is consumed one per iteration,
incrementing `retry_count` each time, as long as the retry budget allows. -/
theorem pollLoop_notFound_append (container_name : String)
    (pre cs : List CheckResult)
    (h : ∀ c ∈ pre, isNotFoundCheck container_name c = true) :
    ∀ rc att : Nat, rc + pre.length ≤ 3 →
      pollLoop container_name rc att (pre ++ cs)
        = pollLoop container_name (rc + pre.length) (att + pre.length) cs := by
  induction pre with
  | nil => intro rc att _; simp
  | cons c pre ih =>
    intro rc att hle
    have hc := h c (List.mem_cons_self c pre)
    cases c with
    | err => simp [isNotFoundCheck] at hc
    | ok stdout =>
      have hni : nameIn container_name stdout = false := by
        simpa [isNotFoundCheck] using hc
      have hrc : ¬ 2 < rc := by simp only [List.length_cons] at hle; omega
      rw [List.cons_append]
      rw [show pollLoop container_name rc att (CheckResult.ok stdout :: (pre ++ cs))
            = pollLoop container_name (rc + 1) (att + 1) (pre ++ cs) by
        simp [pollLoop, hrc, hni]]
      rw [ih (fun c hc => h c (List.mem_cons_of_mem _ hc)) (rc + 1) (att + 1)
        (by simp only [List.length_cons] at hle; omega)]
      simp only [List.length_cons]
      congr 1 <;> omega

/-- Erroring checks are consumed without touching `retry_count`. -/
theorem pollLoop_err_replicate (container_name : String) (n : Nat) :
    ∀ rc att : Nat, rc ≤ 2 →
      pollLoop container_name rc att (List.replicate n CheckResult.err)
        = PollOutcome.stillPolling (att + n) := by
  induction n with
  | zero => intro rc att h; simp [pollLoop, Nat.not_lt.mpr h]
  | succ n ih =>
    intro rc att h
    rw [List.replicate_succ]
    rw [show pollLoop container_name rc att
          (CheckResult.err :: List.replicate n CheckResult.err)
          = pollLoop container_name rc (att + 1) (List.replicate n CheckResult.err) by
      simp [pollLoop, Nat.not_lt.mpr h]]
    rw [ih rc (att + 1) h]
    congr 1
    omega

/-- A successful poll always reports strictly more consumed checks than had
been consumed when it started. -/
theorem pollLoop_success_gt (container_name : String) :
    ∀ (cs : List CheckResult) (rc att k : Nat),
      pollLoop container_name rc att cs = PollOutcome.success k → att < k := by
  intro cs
  induction cs with
  | nil =>
    intro rc att k h
    by_cases hrc : 2 < rc <;> simp [pollLoop, hrc] at h
  | cons c rest ih =>
    intro rc att k h
    cases c with
    | ok stdout =>
      by_cases hrc : 2 < rc
      · simp [pollLoop, hrc] at h
      · by_cases hni : nameIn container_name stdout
        · simp [pollLoop, hrc, hni] at h
          omega
        · simp only [pollLoop, if_neg hrc, if_neg hni] at h
          have := ih (rc + 1) (att + 1) k h
          omega
    | err =>
      by_cases hrc : 2 < rc
      · simp [pollLoop, hrc] at h
      · simp only [pollLoop, if_neg hrc] at h
        have := ih rc (att + 1) k h
        omega

/-- C2: if the container name is found on attempt `k ≤ 3` (after `k − 1`
completed checks that did not find it), `launch_container` returns success
immediately after attempt `k`, leaving the remaining polls unconsumed; and if
3 completed checks all fail to find the name, the fatal `RuntimeError` is
raised after exactly 3 attempts, whatever further checks would have
followed. -/
theorem launch_container_polling (container_name stdout : String)
    (pre rest q qrest : List CheckResult)
    (hpre : ∀ c ∈ pre, isNotFoundCheck container_name c = true)
    (hlen : pre.length ≤ 2)
    (hout : nameIn container_name stdout = true)
    (hq : ∀ c ∈ q, isNotFoundCheck container_name c = true)
    (hqlen : q.length = 3) :
    launch_container container_name (pre ++ CheckResult.ok stdout :: rest)
      = PollOutcome.success (pre.length + 1)
    ∧ launch_container container_name (q ++ qrest) = PollOutcome.fatalError 3 := by
  constructor
  · unfold launch_container
    rw [pollLoop_notFound_append container_name pre _ hpre 0 0 (by omega)]
    have hrc : ¬ 2 < 0 + pre.length := by omega
    simp [pollLoop, hrc, hout]
    omega
  · unfold launch_container
    rw [pollLoop_notFound_append container_name q qrest hq 0 0 (by omega)]
    rw [hqlen]
    exact pollLoop_fatal_of_rc container_name qrest 3 3 (by omega)

/-- Witness for C2: the name is found on attempt 2 of 3 and the third poll is
not consumed; three not-found checks exhaust the budget and the fatal error
comes after exactly 3 attempts even with a further check available. -/
theorem launch_container_polling_witness :
    launch_container "postgres_weather"
        ([CheckResult.ok "\n"] ++ CheckResult.ok "postgres_weather\n"
          :: [CheckResult.ok "postgres_weather\n"])
      = PollOutcome.success ([CheckResult.ok "\n"].length + 1)
    ∧ launch_container "postgres_weather"
        ([CheckResult.ok "", CheckResult.ok "", CheckResult.ok ""]
          ++ [CheckResult.err])
      = PollOutcome.fatalError 3 :=
  launch_container_polling "postgres_weather" "postgres_weather\n"
    [CheckResult.ok "\n"] [CheckResult.ok "postgres_weather\n"]
    [CheckResult.ok "", CheckResult.ok "", CheckResult.ok ""] [CheckResult.err]
    (by decide) (by decide) (by decide) (by decide) (by decide)

/-- C3 (divergence): a status check that raises `CalledProcessError` does NOT
consume one of the 3 retry attempts — the `except` branch never increments
`retry_count` — so when every check errors the loop keeps polling
indefinitely: after any number `n` of erroring checks (in particular after 4,
beyond the claimed 3-attempt bound) the loop is still running and the fatal
`RuntimeError` has not been raised. -/
theorem launch_container_error_checks_spin :
    (∀ n : Nat, launch_container "postgres_weather" (List.replicate n CheckResult.err)
        = PollOutcome.stillPolling n)
    ∧ launch_container "postgres_weather" (List.replicate 4 CheckResult.err)
        = PollOutcome.stillPolling 4 := by
  constructor
  · intro n
    unfold launch_container
    simpa using pollLoop_err_replicate "postgres_weather" n 0 0 (by omega)
  · unfold launch_container
    simpa using pollLoop_err_replicate "postgres_weather" 4 0 0 (by omega)

/-- C8 counterexample: the status check of `launch_container` does not test
for an exact name match, and its filter does not use the given name.  With
container name `"post"` and listing output `"postgres_weather\n"` — whose
lines contain no container named exactly `"post"` — the poll nevertheless
reports success on the first attempt, and the invoked command filters by the
literal `"postgres_weather"`, not by the `"post"` argument. -/
theorem launch_container_substring_counterexample :
    launch_container "post" [CheckResult.ok "postgres_weather\n"]
      = PollOutcome.success 1
    ∧ linesExactMatch "post" "postgres_weather\n" = false
    ∧ psCommand "post"
        ≠ ["docker", "ps", "--filter", "name=post", "--format",
           "\x7b\x7b.Names\x7d\x7d"] := by
  refine ⟨by decide, by decide, by decide⟩

/-- C8 amended: each status check invokes the listing command with the fixed
filter `"name=postgres_weather"` (independent of the `container_name`
argument), and the first check reports the container as running exactly when
its output contains the container name as a substring (Python's `in`). -/
theorem launch_container_check_semantics (container_name stdout : String)
    (rest : List CheckResult) :
    (launch_container container_name (CheckResult.ok stdout :: rest)
        = PollOutcome.success 1
      ↔ nameIn container_name stdout = true)
    ∧ psCommand container_name = psCommand "postgres_weather" := by
  refine ⟨⟨?_, ?_⟩, rfl⟩
  · intro h
    by_cases hni : nameIn container_name stdout
    · exact hni
    · exfalso
      unfold launch_container at h
      simp only [pollLoop, show ¬ 2 < 0 by omega, if_neg, if_false, hni] at h
      exact absurd (pollLoop_success_gt container_name rest 1 1 1 h) (by omega)
  · intro h
    unfold launch_container
    simp [pollLoop, h]

/-- C9 counterexample: an error raised while executing the table-creation DDL
does not propagate — it is caught by the `except Exception` branch and only
logged.  With the DDL raising `"OperationalError: connection refused"` and
the subsequent existence check finding the table (e.g. left over from an
earlier run), `create_table` prints the log line and returns `"Success"`. -/
theorem create_table_swallows_ddl_error :
    create_table "daily_weather"
        (Except.error "OperationalError: connection refused") (Except.ok true)
      = (["Ошибка при создании таблицы: OperationalError: connection refused"],
         Except.ok "Success") := rfl

/-- C9 amended: an error raised while executing the DDL is caught and only
logged — the outcome of `create_table` is exactly what it would have been had
the DDL succeeded.  A creation failure still surfaces fatally, but through
the separate verification step: an error raised by the existence query
propagates to the caller, and a missing table raises the `RuntimeError`. -/
theorem create_table_error_semantics (table_name e : String)
    (d : Except String Unit) (v : Except String Bool) :
    (create_table table_name (Except.error e) v).1
        = ["Ошибка при создании таблицы: " ++ e]
    ∧ (create_table table_name (Except.error e) v).2
        = (create_table table_name (Except.ok ()) v).2
    ∧ (create_table table_name d (Except.error e)).2 = Except.error e
    ∧ (create_table table_name d (Except.ok false)).2
        = Except.error ("Ошибка: Таблица '" ++ table_name ++ "' не была создана.") := by
  refine ⟨?_, ?_, ?_, ?_⟩
  · cases v with
    | error e2 => rfl
    | ok b => cases b <;> rfl
  · cases v with
    | error e2 => rfl
    | ok b => cases b <;> rfl
  · cases d <;> rfl
  · cases d <;> rfl

/-- C1: `load_data` returns `"Success"` exactly when the row count persisted
by the wholesale replace equals the number of input rows; whenever the
persisted count differs, the `ValueError` is raised instead of returning
success.  In both cases the persisted table holds the state the replace
produced — an integrity error does not roll the write back. -/
theorem load_data_integrity (daily_dataframe : List WRow)
    (persist : List WRow → List WRow) :
    ((load_data daily_dataframe persist).result = Except.ok "Success"
      ↔ (persist daily_dataframe).length = daily_dataframe.length)
    ∧ (load_data daily_dataframe persist).rows = persist daily_dataframe := by
  unfold load_data
  by_cases h : (persist daily_dataframe).length = daily_dataframe.length
  · simp [h]
  · simp [h]

/-- C4 (divergence): `load_data` writes with
`to_sql(..., if_exists="replace")`, which drops the table `create_table`
built and recreates it from the dataframe's dtypes.  On a successful return
the persisted schema is therefore the pandas-inferred one — no primary key at
all (and floating-point `weather_code`, timestamp `date`) — not the §3 schema
whose `date` is the DATE primary key. -/
theorem load_data_replaces_schema :
    (load_data oneRowDf (fun rows => rows)).result = Except.ok "Success"
    ∧ (load_data oneRowDf (fun rows => rows)).schema = to_sql_replace_schema
    ∧ (load_data oneRowDf (fun rows => rows)).schema ≠ ddl_schema
    ∧ (load_data oneRowDf (fun rows => rows)).schema.primaryKey = none
    ∧ ddl_schema.primaryKey = some "date" :=
  ⟨rfl, rfl, by decide, rfl, rfl⟩

/-- C5: on the spec's example table
`[(d1, temp=30, wind=5), (d2, temp=25, wind=40), (d3, temp=20, wind=2)]`
(three distinct dates), `get_dates` pools the per-metric top-3 lists — six
entries whose duplicate dates collapse to three on deduplication — and
returns the three dates in temperature-descending order `[d1, d2, d3]`. -/
theorem get_dates_example :
    (get_dates exampleDf).2
      = ["1 сентября 2024", "2 сентября 2024", "3 сентября 2024"]
    ∧ ((nlargest 3 (fun r => r.temperature_2m_max) exampleDf).map selectTempCols
        ++ (nlargest 3 (fun r => r.wind_speed_10m_max) exampleDf).map selectWindCols).length = 6
    ∧ (drop_duplicates_date
        ((nlargest 3 (fun r => r.temperature_2m_max) exampleDf).map selectTempCols
          ++ (nlargest 3 (fun r => r.wind_speed_10m_max) exampleDf).map selectWindCols)).length
      = 3 := by
  refine ⟨by decide, by decide, by decide⟩

/-- C10: `ask_user` keeps re-prompting past any number of responses whose
trimmed, lowercased form is neither `"y"` nor `"n"`, returns as soon as a
response normalizes to `"y"` or `"n"`, and returns exactly that normalized
answer; a run of invalid responses of any length never makes it return. -/
theorem ask_user_loop (pre rest : List String) (ans : String) (bad : List String)
    (hpre : ∀ s ∈ pre, ¬ (normalize s = "y" ∨ normalize s = "n"))
    (hans : normalize ans = "y" ∨ normalize ans = "n")
    (hbad : ∀ s ∈ bad, ¬ (normalize s = "y" ∨ normalize s = "n")) :
    ask_user (pre ++ ans :: rest) = some (normalize ans)
    ∧ ask_user bad = none := by
  constructor
  · induction pre with
    | nil => simp [ask_user, hans]
    | cons s pre ih =>
      have hs := hpre s (List.mem_cons_self s pre)
      rw [List.cons_append]
      rw [show ask_user (s :: (pre ++ ans :: rest)) = ask_user (pre ++ ans :: rest) by
        simp [ask_user, hs]]
      exact ih (fun s hs => hpre s (List.mem_cons_of_mem _ hs))
  · induction bad with
    | nil => rfl
    | cons s bad ih =>
      have hs := hbad s (List.mem_cons_self s bad)
      rw [show ask_user (s :: bad) = ask_user bad by simp [ask_user, hs]]
      exact ih (fun s hs => hbad s (List.mem_cons_of_mem _ hs))

/-- Witness for C10: two invalid responses (`"maybe"`, `" YES "`) are
rejected, the response `" N "` is accepted and returned normalized, and a
list of only invalid responses never produces an answer. -/
theorem ask_user_loop_witness :
    ask_user (["maybe", " YES "] ++ " N " :: ["y"]) = some (normalize " N ")
    ∧ ask_user ["", "zz", "нет"] = none :=
  ask_user_loop ["maybe", " YES "] ["y"] " N " ["", "zz", "нет"]
    (by decide) (by decide) (by decide)

/-- C7: the Summary Reporter is a pure function of the Weather Table.  The
two counts are boolean-mask reads, and the only write `get_dates` performs on
the caller's dataframe — reassigning the `date` column through
`pd.to_datetime` — leaves every value unchanged because the column already
holds datetimes, so the table after the reporter equals the table before
it. -/
theorem reporter_pure (df : List WRow) : (reporter df).1 = df := by
  show df.map (fun r => { r with date := to_datetime r.date }) = df
  exact List.map_id' df

/-! ## Lemmas about the stable descending sort and `nlargest` -/

theorem insertDesc_perm {α : Type} (key : α → Int) (x : α) (l : List α) :
    List.Perm (insertDesc key x l) (x :: l) := by
  induction l with
  | nil => simp [insertDesc]
  | cons y ys ih =>
    by_cases h : key x < key y
    · rw [insertDesc, if_pos h]
      exact (ih.cons y).trans (List.Perm.swap x y ys)
    · rw [insertDesc, if_neg h]

theorem sortDesc_perm {α : Type} (key : α → Int) (l : List α) :
    List.Perm (sortDesc key l) l := by
  induction l with
  | nil => simp [sortDesc]
  | cons x xs ih =>
    exact (insertDesc_perm key x (sortDesc key xs)).trans (ih.cons x)

theorem insertDesc_sorted {α : Type} (key : α → Int) (x : α) (l : List α)
    (h : SortedDesc key l) : SortedDesc key (insertDesc key x l) := by
  induction l with
  | nil => simp [insertDesc, SortedDesc]
  | cons y ys ih =>
    rw [SortedDesc, List.pairwise_cons] at h
    obtain ⟨hy, hys⟩ := h
    by_cases hxy : key x < key y
    · rw [insertDesc, if_pos hxy, SortedDesc, List.pairwise_cons]
      refine ⟨?_, ih hys⟩
      intro b hb
      have hb' : b = x ∨ b ∈ ys := by
        simpa using (insertDesc_perm key x ys).mem_iff.mp hb
      rcases hb' with rfl | hb'
      · omega
      · exact hy b hb'
    · rw [insertDesc, if_neg hxy, SortedDesc, List.pairwise_cons]
      refine ⟨?_, List.pairwise_cons.mpr ⟨hy, hys⟩⟩
      intro b hb
      rcases List.mem_cons.mp hb with rfl | hb'
      · omega
      · have := hy b hb'
        omega

theorem sortDesc_sorted {α : Type} (key : α → Int) (l : List α) :
    SortedDesc key (sortDesc key l) := by
  induction l with
  | nil => simp [sortDesc, SortedDesc]
  | cons x xs ih => exact insertDesc_sorted key x (sortDesc key xs) ih

theorem insertDesc_eq_cons {α : Type} (key : α → Int) (x : α) (l : List α)
    (h : ∀ y ∈ l, key y ≤ key x) : insertDesc key x l = x :: l := by
  cases l with
  | nil => rfl
  | cons y ys =>
    rw [insertDesc, if_neg]
    have := h y (List.mem_cons_self y ys)
    omega

/-- A list already sorted by non-increasing key is a fixed point of the
stable sort. -/
theorem sortDesc_eq_self {α : Type} (key : α → Int) (l : List α)
    (h : SortedDesc key l) : sortDesc key l = l := by
  induction l with
  | nil => rfl
  | cons x xs ih =>
    rw [SortedDesc, List.pairwise_cons] at h
    rw [sortDesc, ih h.2, insertDesc_eq_cons key x xs h.1]

theorem mem_of_nlargest {α : Type} {n : Nat} {key : α → Option Int}
    {l : List α} {x : α} (h : x ∈ nlargest n key l) : x ∈ l := by
  unfold nlargest at h
  have h1 := (List.take_sublist _ _).subset h
  have h2 := (sortDesc_perm _ _).mem_iff.mp h1
  exact List.mem_of_mem_filter h2

theorem nlargest_sorted {α : Type} (n : Nat) (key : α → Option Int)
    (l : List α) : SortedDesc (fun r => (key r).getD 0) (nlargest n key l) :=
  (sortDesc_sorted _ _).sublist (List.take_sublist _ _)

/-- When every row carries a value in the ordering column and the list has at
least `n` rows, `nlargest n` returns exactly `n` rows. -/
theorem nlargest_length {α : Type} (n : Nat) (key : α → Option Int)
    (l : List α) (hsome : ∀ r ∈ l, (key r).isSome = true) (hn : n ≤ l.length) :
    (nlargest n key l).length = n := by
  unfold nlargest
  rw [List.filter_eq_self.mpr hsome, List.length_take,
    (sortDesc_perm _ l).length_eq]
  omega

/-! ## Lemmas about date deduplication -/

theorem mem_of_dropDupDateAux :
    ∀ (seen : List WDate) (l : List WRow) (x : WRow),
      x ∈ dropDupDateAux seen l → x ∈ l := by
  intro seen l
  induction l generalizing seen with
  | nil => intro x h; simp [dropDupDateAux] at h
  | cons r rs ih =>
    intro x h
    rw [dropDupDateAux] at h
    by_cases hd : r.date ∈ seen
    · rw [if_pos hd] at h
      exact List.mem_cons_of_mem r (ih seen x h)
    · rw [if_neg hd] at h
      rcases List.mem_cons.mp h with rfl | h'
      · exact List.mem_cons_self x rs
      · exact List.mem_cons_of_mem r (ih _ x h')

/-- Deduplication by date passes an initial block of rows with pairwise
distinct, unseen dates through unchanged, and keeps only some of the
following rows. -/
theorem dropDupDateAux_append (tt : List WRow) :
    ∀ (ws : List WRow) (seen : List WDate),
      (∀ r ∈ tt, r.date ∉ seen) → (tt.map WRow.date).Nodup →
      ∃ ws', dropDupDateAux seen (tt ++ ws) = tt ++ ws'
        ∧ ∀ x ∈ ws', x ∈ ws := by
  induction tt with
  | nil =>
    intro ws seen _ _
    exact ⟨dropDupDateAux seen ws, rfl, fun x hx => mem_of_dropDupDateAux seen ws x hx⟩
  | cons r tt ih =>
    intro ws seen hseen hnodup
    have hr : r.date ∉ seen := hseen r (List.mem_cons_self r tt)
    have hnodup' : (r.date :: tt.map WRow.date).Nodup := by
      rw [List.map_cons] at hnodup; exact hnodup
    have hnd := List.nodup_cons.mp hnodup'
    have hseen' : ∀ x ∈ tt, x.date ∉ r.date :: seen := by
      intro x hx
      have h1 : x.date ∈ tt.map WRow.date := List.mem_map_of_mem WRow.date hx
      intro hc
      rcases List.mem_cons.mp hc with he | hc'
      · exact hnd.1 (he ▸ h1)
      · exact hseen x (List.mem_cons_of_mem r hx) hc'
    obtain ⟨ws', heq, hsub⟩ := ih ws (r.date :: seen) hseen' hnd.2
    refine ⟨ws', ?_, hsub⟩
    rw [List.cons_append, dropDupDateAux, if_neg hr, heq, List.cons_append]

/-- The heart of C6: pooling a sorted block of 3 rows with present
temperatures and pairwise distinct dates with any rows whose temperature is
missing, deduplicating by date and selecting the top 3 by temperature gives
back exactly the original block — the missing-temperature rows are dropped by
`nlargest`. -/
theorem nlargest_temp_append_none (tt ws : List WRow)
    (hsome : ∀ r ∈ tt, (r.temperature_2m_max).isSome = true)
    (hsorted : SortedDesc (fun r => (r.temperature_2m_max).getD 0) tt)
    (hlen : tt.length = 3)
    (hnodup : (tt.map WRow.date).Nodup)
    (hws : ∀ x ∈ ws, x.temperature_2m_max = none) :
    nlargest 3 (fun r => r.temperature_2m_max) (drop_duplicates_date (tt ++ ws))
      = tt := by
  obtain ⟨ws', heq, hsub⟩ := dropDupDateAux_append tt ws [] (by simp) hnodup
  rw [drop_duplicates_date, heq]
  unfold nlargest
  rw [List.filter_append]
  rw [show (tt.filter fun r => (r.temperature_2m_max).isSome) = tt from
    List.filter_eq_self.mpr hsome]
  rw [show (ws'.filter fun r => (r.temperature_2m_max).isSome) = [] by
    rw [List.filter_eq_nil_iff]
    intro a ha
    simp [hws a (hsub a ha)]]
  rw [List.append_nil, sortDesc_eq_self _ _ hsorted,
    List.take_of_length_le (by omega)]

/-- C6: on a Weather Table with at least 3 rows, no missing temperatures and
pairwise distinct dates (§3's one-row-per-date invariant), `get_dates`
returns exactly the dates of the temperature top 3 — the pooled wind entries
carry no temperature value and are dropped by the final
top-3-by-temperature selection, so the wind-speed column never influences the
result, and exactly 3 dates come back. -/
theorem get_dates_ignores_wind (df : List WRow)
    (hlen : 3 ≤ df.length)
    (htemp : ∀ r ∈ df, (r.temperature_2m_max).isSome = true)
    (hdates : (df.map WRow.date).Nodup) :
    (get_dates df).2
      = (nlargest 3 (fun r => r.temperature_2m_max) df).map
          (fun r => formatDate r.date)
    ∧ ((get_dates df).2).length = 3 := by
  have hfilter : (df.filter fun r => (r.temperature_2m_max).isSome) = df :=
    List.filter_eq_self.mpr htemp
  have htt_sub : ∀ r ∈ nlargest 3 (fun r => r.temperature_2m_max) df, r ∈ df :=
    fun r hr => mem_of_nlargest hr
  have htt_some : ∀ r ∈ nlargest 3 (fun r => r.temperature_2m_max) df,
      (r.temperature_2m_max).isSome = true :=
    fun r hr => htemp r (htt_sub r hr)
  have htt_sorted : SortedDesc (fun r => (r.temperature_2m_max).getD 0)
      (nlargest 3 (fun r => r.temperature_2m_max) df) :=
    nlargest_sorted 3 _ df
  have htt_len : (nlargest 3 (fun r => r.temperature_2m_max) df).length = 3 :=
    nlargest_length 3 _ df htemp hlen
  have htt_nodup :
      ((nlargest 3 (fun r => r.temperature_2m_max) df).map WRow.date).Nodup := by
    unfold nlargest
    rw [hfilter, List.map_take]
    exact List.Nodup.sublist (List.take_sublist _ _)
      (((sortDesc_perm _ df).map WRow.date).nodup_iff.mpr hdates)
  have hsel_some : ∀ r ∈ (nlargest 3 (fun r => r.temperature_2m_max) df).map
      selectTempCols, (r.temperature_2m_max).isSome = true := by
    intro r hr
    obtain ⟨y, hy, rfl⟩ := List.mem_map.mp hr
    exact htt_some y hy
  have hsel_sorted : SortedDesc (fun r => (r.temperature_2m_max).getD 0)
      ((nlargest 3 (fun r => r.temperature_2m_max) df).map selectTempCols) :=
    List.pairwise_map.mpr htt_sorted
  have hsel_len :
      ((nlargest 3 (fun r => r.temperature_2m_max) df).map selectTempCols).length
        = 3 := by
    rw [List.length_map]; exact htt_len
  have hsel_nodup :
      (((nlargest 3 (fun r => r.temperature_2m_max) df).map selectTempCols).map
        WRow.date).Nodup := by
    have hmaps : ((nlargest 3 (fun r => r.temperature_2m_max) df).map
        selectTempCols).map WRow.date
        = (nlargest 3 (fun r => r.temperature_2m_max) df).map WRow.date := by
      rw [List.map_map]; rfl
    rw [hmaps]; exact htt_nodup
  have hws : ∀ x ∈ (nlargest 3 (fun r => r.wind_speed_10m_max) df).map
      selectWindCols, x.temperature_2m_max = none := by
    intro x hx
    obtain ⟨y, _, rfl⟩ := List.mem_map.mp hx
    rfl
  have hdf2 : df.map (fun r => { r with date := to_datetime r.date }) = df :=
    List.map_id' df
  have hmain : (get_dates df).2
      = ((nlargest 3 (fun r => r.temperature_2m_max) df).map selectTempCols).map
          (fun r => formatDate r.date) := by
    unfold get_dates
    simp only [hdf2]
    rw [nlargest_temp_append_none _ _ hsel_some hsel_sorted hsel_len hsel_nodup hws]
  constructor
  · rw [hmain, List.map_map]
    rfl
  · rw [hmain, List.length_map, hsel_len]

/-- Witness for C6: a four-row table whose windiest day (day 4, wind 50) is
outside the temperature top 3; the returned dates are exactly the three
hottest days. -/
theorem get_dates_ignores_wind_witness :
    (get_dates windyDf).2
      = (nlargest 3 (fun r => r.temperature_2m_max) windyDf).map
          (fun r => formatDate r.date)
    ∧ ((get_dates windyDf).2).length = 3 :=
  get_dates_ignores_wind windyDf (by decide) (by decide) (by decide)

end MainScript
